import Mathlib

/-!
Shallow embedding of `src/butterfly/boundarycondition.py`: the boundary-condition
registry (a base record type and ten subclasses), its field-coercion helper
`tryGetField`, the refinement-level normalization, and the `duplicate` operation.
Python's dynamic values are embedded as the inductive `PyVal`; code that can raise
is embedded in `Except String`.  The `fields` and `conditions` modules are external
collaborators not present in the repository's sources; the definitions marked
"Modelled from the spec" embed them as opaque tagged values, following the
specification's description.
-/

namespace Butterfly

/-- Python scalar constant appearing as a constructor argument in the source
(string literals such as "(0 0 0)"; numeric literals such as 0.01, represented
exactly as rationals — they are stored, never computed with). -/
inductive Scalar where
  | str (s : String)
  | num (q : ℚ)
deriving DecidableEq, Repr

/-- Modelled from the spec: the ABL-conditions collaborator (`conditions.ABLConditions`,
not under the repository sources) — "atmospheric-boundary-layer parameters (reference
height, velocity, roughness) used to derive profile-based inlet defaults". -/
structure ABLConditions where
  Uref : Scalar
  Zref : Scalar
  z0 : Scalar
deriving DecidableEq, Repr

/-- Modelled from the spec: the Field collaborator type (`fields` module, not under the
repository sources) — "a tagged value representing an OpenFOAM field expression",
treated as opaque.  One tag per field class that `boundarycondition.py` imports,
carrying the constructor arguments the source passes, plus the two generic
construction paths (`ofDict` for the from-mapping path, `ofString` for the
from-scalar path). -/
inductive Field where
  | zeroGradient
  | fixedValue (value : Scalar)
  | kqRWallFunction (value : Scalar) (isUniform : Bool)
  | epsilonWallFunction (value : Scalar) (isUniform : Bool)
  | nutkWallFunction (value : Scalar)
  | calculated (value : Scalar)
  | alphatJayatillekeWallFunction (value : Scalar) (isUniform : Bool) (Prt : Scalar)
  | fixedFluxPressure (value : Scalar) (isUniform : Bool) (rho : Scalar)
  | empty
  | slip
  | inletOutlet (inletValue : Scalar) (value : Scalar)
  | nutkAtmRoughWallFunction (abl : ABLConditions) (init : Scalar)
  | atmBoundaryLayerInletVelocity (abl : ABLConditions)
  | atmBoundaryLayerInletK (abl : ABLConditions)
  | atmBoundaryLayerInletEpsilon (abl : ABLConditions)
  | ofDict (entries : List (String × String))
  | ofString (value : Scalar)
deriving DecidableEq, Repr

/-- Dynamic Python value universe for the values reaching the constructors and setters:
`None`, ints, strings, mappings (dict / OrderedDict, modelled as association lists of
strings), Field instances, and `obj`, an object of an unrelated type with no valid
Field conversion (spec §8's "unrecognized, non-coercible field value"). -/
inductive PyVal where
  | none
  | int (n : Int)
  | str (s : String)
  | dict (entries : List (String × String))
  | field (f : Field)
  | obj (id : Nat)
deriving DecidableEq, Repr

/-- Python truthiness on `PyVal`: `None`, `0`, `""` and an empty dict are falsy;
Field instances and other objects define no `__bool__` or `__len__`, hence truthy. -/
def pyTruthy : PyVal → Bool
  | PyVal.none => false
  | PyVal.int n => n != 0
  | PyVal.str s => s != ""
  | PyVal.dict d => !d.isEmpty
  | PyVal.field _ => true
  | PyVal.obj _ => true

/-- Python `a or b`: the left operand when truthy, otherwise the right operand. -/
def pyOr (a b : PyVal) : PyVal := if pyTruthy a then a else b

/-- Abstraction of Python `str(v)` as used by the error message's `.format(f)`. -/
def pyRepr : PyVal → String
  | PyVal.none => "None"
  | PyVal.int n => toString n
  | PyVal.str s => s
  | PyVal.dict d => "dict with " ++ toString d.length ++ " entries"
  | PyVal.field _ => "Field instance"
  | PyVal.obj n => "object " ++ toString n

/-- Modelled from the spec: the Field collaborator's from-mapping construction entry
point ("mapping keys select the Field variant and its parameters"): total on mappings. -/
def Field.fromDict (d : List (String × String)) : Field := Field.ofDict d

/-- Modelled from the spec: the Field collaborator's from-scalar construction entry
point ("attempt to construct a Field from its string/scalar representation"): it
succeeds on strings and numbers and raises (returns `Option.none`) on any value
without a valid scalar representation. -/
def Field.fromString : PyVal → Option Field
  | PyVal.str s => some (Field.ofString (Scalar.str s))
  | PyVal.int n => some (Field.ofString (Scalar.num (n : ℚ)))
  | _ => Option.none

/-- Message of the `ValueError` raised by `tryGetField` (lines 134-136) — the error the
spec names `InvalidFieldSpec`; it identifies the offending input via its printed
representation. -/
def invalidFieldSpec (f : PyVal) : String :=
  "Failed to create an OpenFOAM field from " ++ pyRepr f ++ ". Use a valid value."

/-- Embedding of the static method `BoundaryCondition.tryGetField` (lines 118-136):
return the input if it is a Field instance, otherwise build a Field from a mapping,
otherwise try the from-scalar path and raise ValueError on failure. -/
def tryGetField (f : PyVal) : Except String Field :=
  match f with
  | PyVal.field fld => Except.ok fld
  | PyVal.dict d => Except.ok (Field.fromDict d)
  | v =>
    match Field.fromString v with
    | some fld => Except.ok fld
    | Option.none => Except.error (invalidFieldSpec v)

/-- Embedding of the eight property setters (lines 47-112): every setter stores
`tryGetField (arg or ZeroGradient())`. -/
def setField (v : PyVal) : Except String Field :=
  tryGetField (pyOr v (PyVal.field Field.zeroGradient))

/-- Value of a decimal digit character, `Option.none` for a non-digit. -/
def digitVal (c : Char) : Option Nat :=
  if '0' ≤ c ∧ c ≤ '9' then some (c.toNat - 48) else Option.none

/-- Decimal value of a non-empty run of digit characters. -/
def digitsToNat : List Char → Option Nat
  | [] => Option.none
  | l => l.foldlM (fun acc c => (digitVal c).map (fun d => acc * 10 + d)) 0

/-- Decimal integer literal parsing, as Python `int(string)` accepts (an optional
leading minus sign followed by digits). -/
def strToInt (s : String) : Option Int :=
  match s.data with
  | '-' :: rest => (digitsToNat rest).map (fun n => -(n : Int))
  | l => (digitsToNat l).map (fun n => (n : Int))

/-- Python `int(v)` on `PyVal`: identity on ints, decimal parsing on strings
(raising ValueError on a bad literal), raising TypeError on anything else. -/
def pyInt : PyVal → Except String Int
  | PyVal.int n => Except.ok n
  | PyVal.str s =>
    match strToInt s with
    | some n => Except.ok n
    | Option.none => Except.error ("invalid literal for int with base 10: " ++ s)
  | v => Except.error ("int argument must be a string or a number, not " ++ pyRepr v)

/-- Sequential per-element coercion of the generator `(int(v) for v in refLevels)`
consumed by `tuple(...)`: the first raise aborts the whole conversion. -/
def mapPyInt : List PyVal → Except String (List Int)
  | [] => Except.ok []
  | v :: rest => do
    let n ← pyInt v
    let ns ← mapPyInt rest
    Except.ok (n :: ns)

/-- Embedding of line 31: `(1, 1) if not refLevels else tuple(int(v) for v in refLevels)`.
The input is `None` (omitted) or a sequence, modelled as a list of dynamic values; a
Python tuple result is modelled as a list of ints.  An empty sequence is falsy, hence
also yields `(1, 1)`. -/
def normalizeRefLevels (refLevels : Option (List PyVal)) : Except String (List Int) :=
  match refLevels with
  | Option.none => Except.ok [1, 1]
  | some l => if l.isEmpty then Except.ok [1, 1] else mapPyInt l

/-- State of a constructed `BoundaryCondition` object: the patch kind, the normalized
refinement levels and the eight field slots.  The slots are typed as dynamic values
(`PyVal`) — that every successful construction leaves a Field instance in each slot is
the invariant proved below, not baked into the type. -/
structure BoundaryCondition where
  type : String
  refLevels : List Int
  T : PyVal
  U : PyVal
  p : PyVal
  k : PyVal
  epsilon : PyVal
  nut : PyVal
  alphat : PyVal
  p_rgh : PyVal
deriving DecidableEq, Repr

/-- Embedding of `BoundaryCondition.__init__` (lines 27-40): normalize the refinement
levels, then run each field argument through its property setter in source order;
any raise aborts the construction. -/
def BoundaryCondition.init (bcType : String) (refLevels : Option (List PyVal))
    (T U p k epsilon nut alphat p_rgh : PyVal) : Except String BoundaryCondition := do
  let rls ← normalizeRefLevels refLevels
  let tF ← setField T
  let uF ← setField U
  let pF ← setField p
  let kF ← setField k
  let eF ← setField epsilon
  let nF ← setField nut
  let aF ← setField alphat
  let prF ← setField p_rgh
  Except.ok { type := bcType, refLevels := rls,
              T := PyVal.field tF, U := PyVal.field uF, p := PyVal.field pF,
              k := PyVal.field kF, epsilon := PyVal.field eF, nut := PyVal.field nF,
              alphat := PyVal.field aF, p_rgh := PyVal.field prF }

/-- Embedding of `BoundingBoxBoundaryCondition.__init__` (lines 158-171): every field
is forced to ZeroGradient, the caller's refLevels argument is overwritten with None,
and the kind is wall. -/
def BoundingBoxBoundaryCondition.init (refLevels : Option (List PyVal)) :
    Except String BoundaryCondition :=
  BoundaryCondition.init "wall" Option.none
    (PyVal.field Field.zeroGradient) (PyVal.field Field.zeroGradient)
    (PyVal.field Field.zeroGradient) (PyVal.field Field.zeroGradient)
    (PyVal.field Field.zeroGradient) (PyVal.field Field.zeroGradient)
    (PyVal.field Field.zeroGradient) (PyVal.field Field.zeroGradient)

/-- Embedding of `EmptyBoundaryCondition.__init__` (lines 180-193): every field is
forced to Empty, the caller's refLevels argument is overwritten with None, kind wall. -/
def EmptyBoundaryCondition.init (refLevels : Option (List PyVal)) :
    Except String BoundaryCondition :=
  BoundaryCondition.init "wall" Option.none
    (PyVal.field Field.empty) (PyVal.field Field.empty)
    (PyVal.field Field.empty) (PyVal.field Field.empty)
    (PyVal.field Field.empty) (PyVal.field Field.empty)
    (PyVal.field Field.empty) (PyVal.field Field.empty)

/-- Embedding of `IndoorWallBoundaryCondition.__init__` (lines 209-224): wall defaults
substituted via Python `or` for every falsy/omitted argument. -/
def IndoorWallBoundaryCondition.init (refLevels : Option (List PyVal))
    (T U p k epsilon nut alphat p_rgh : PyVal) : Except String BoundaryCondition :=
  BoundaryCondition.init "wall" refLevels
    (pyOr T (PyVal.field Field.zeroGradient))
    (pyOr U (PyVal.field (Field.fixedValue (Scalar.str "(0 0 0)"))))
    (pyOr p (PyVal.field Field.zeroGradient))
    (pyOr k (PyVal.field (Field.kqRWallFunction (Scalar.str "0.1") true)))
    (pyOr epsilon (PyVal.field (Field.epsilonWallFunction (Scalar.num (1 / 100)) true)))
    (pyOr nut (PyVal.field (Field.nutkWallFunction (Scalar.num (1 / 100)))))
    (pyOr alphat (PyVal.field
      (Field.alphatJayatillekeWallFunction (Scalar.str "0") true (Scalar.str "0.85"))))
    (pyOr p_rgh (PyVal.field
      (Field.fixedFluxPressure (Scalar.str "0") true (Scalar.str "rhok"))))

/-- Embedding of `FixedInletBoundaryCondition.__init__` (lines 240-254): patch defaults
for U, p, k, epsilon via Python `or`; `T = T if T else None` (no inlet default for T);
the caller's nut, alphat and p_rgh arguments are unconditionally overwritten with
`Calculated('0')`, ZeroGradient and ZeroGradient. -/
def FixedInletBoundaryCondition.init (refLevels : Option (List PyVal))
    (T U p k epsilon nut alphat p_rgh : PyVal) : Except String BoundaryCondition :=
  BoundaryCondition.init "patch" refLevels
    (if pyTruthy T then T else PyVal.none)
    (pyOr U (PyVal.field (Field.fixedValue (Scalar.str "(0 0 0)"))))
    (pyOr p (PyVal.field Field.zeroGradient))
    (pyOr k (PyVal.field (Field.fixedValue (Scalar.str "0.1"))))
    (pyOr epsilon (PyVal.field (Field.fixedValue (Scalar.str "0.01"))))
    (PyVal.field (Field.calculated (Scalar.str "0")))
    (PyVal.field Field.zeroGradient)
    (PyVal.field Field.zeroGradient)

/-- Embedding of `FixedOutletBoundaryCondition.__init__` (lines 276-291): zero-gradient
velocity and turbulence, fixed pressure 0, via Python `or`; the caller's nut, alphat
and p_rgh arguments are unconditionally overwritten. -/
def FixedOutletBoundaryCondition.init (refLevels : Option (List PyVal))
    (T U p k epsilon nut alphat p_rgh : PyVal) : Except String BoundaryCondition :=
  BoundaryCondition.init "patch" refLevels
    (pyOr T (PyVal.field Field.zeroGradient))
    (pyOr U (PyVal.field Field.zeroGradient))
    (pyOr p (PyVal.field (Field.fixedValue (Scalar.str "0"))))
    (pyOr k (PyVal.field Field.zeroGradient))
    (pyOr epsilon (PyVal.field Field.zeroGradient))
    (PyVal.field (Field.calculated (Scalar.str "0")))
    (PyVal.field Field.zeroGradient)
    (PyVal.field Field.zeroGradient)

/-- Embedding of `WindTunnelWallBoundaryCondition.__init__` (lines 313-324): wall
defaults via Python `or`; alphat and p_rgh are not forwarded (the base sees them as
omitted).  The source's `isUnifrom=False` keyword (sic) is modelled as
`isUniform := false`. -/
def WindTunnelWallBoundaryCondition.init (refLevels : Option (List PyVal))
    (T U p k epsilon nut : PyVal) : Except String BoundaryCondition :=
  BoundaryCondition.init "wall" refLevels
    (pyOr T (PyVal.field Field.zeroGradient))
    (pyOr U (PyVal.field (Field.fixedValue (Scalar.str "(0 0 0)"))))
    (pyOr p (PyVal.field Field.zeroGradient))
    (pyOr k (PyVal.field (Field.kqRWallFunction (Scalar.str "$internalField") false)))
    (pyOr epsilon (PyVal.field
      (Field.epsilonWallFunction (Scalar.str "$internalField") false)))
    (pyOr nut (PyVal.field (Field.nutkWallFunction (Scalar.str "0.0"))))
    PyVal.none PyVal.none

/-- Embedding of `WindTunnelGroundBoundaryCondition.__init__` (lines 341-354): nut is
unconditionally the ABL-derived rough-wall function; alphat and p_rgh not forwarded. -/
def WindTunnelGroundBoundaryCondition.init (abl : ABLConditions)
    (refLevels : Option (List PyVal)) (T U p k epsilon : PyVal) :
    Except String BoundaryCondition :=
  BoundaryCondition.init "wall" refLevels
    (pyOr T (PyVal.field Field.zeroGradient))
    (pyOr U (PyVal.field (Field.fixedValue (Scalar.str "(0 0 0)"))))
    (pyOr p (PyVal.field Field.zeroGradient))
    (pyOr k (PyVal.field Field.zeroGradient))
    (pyOr epsilon (PyVal.field Field.zeroGradient))
    (PyVal.field (Field.nutkAtmRoughWallFunction abl (Scalar.str "uniform 0")))
    PyVal.none PyVal.none

/-- Embedding of `WindTunnelInletBoundaryCondition.__init__` (lines 370-382): U, k and
epsilon are unconditionally the ABL-derived inlet profiles (the signature accepts no
U/k/epsilon arguments); p, nut, T default via Python `or`; alphat and p_rgh are not
forwarded. -/
def WindTunnelInletBoundaryCondition.init (abl : ABLConditions)
    (refLevels : Option (List PyVal)) (T p nut : PyVal) :
    Except String BoundaryCondition :=
  BoundaryCondition.init "patch" refLevels
    (pyOr T (PyVal.field Field.zeroGradient))
    (PyVal.field (Field.atmBoundaryLayerInletVelocity abl))
    (pyOr p (PyVal.field Field.zeroGradient))
    (PyVal.field (Field.atmBoundaryLayerInletK abl))
    (PyVal.field (Field.atmBoundaryLayerInletEpsilon abl))
    (pyOr nut (PyVal.field (Field.calculated (Scalar.str "0"))))
    PyVal.none PyVal.none

/-- Embedding of `WindTunnelOutletBoundaryCondition.__init__` (lines 404-417):
inlet-outlet and fixed-pressure defaults via Python `or`; alphat and p_rgh are not
forwarded. -/
def WindTunnelOutletBoundaryCondition.init (refLevels : Option (List PyVal))
    (T U p k epsilon nut : PyVal) : Except String BoundaryCondition :=
  BoundaryCondition.init "patch" refLevels
    (pyOr T (PyVal.field Field.zeroGradient))
    (pyOr U (PyVal.field
      (Field.inletOutlet (Scalar.str "uniform (0 0 0)") (Scalar.str "$internalField"))))
    (pyOr p (PyVal.field (Field.fixedValue (Scalar.str "$pressure"))))
    (pyOr k (PyVal.field
      (Field.inletOutlet (Scalar.str "uniform $turbulentKE") (Scalar.str "$internalField"))))
    (pyOr epsilon (PyVal.field
      (Field.inletOutlet (Scalar.str "uniform $turbulentEpsilon") (Scalar.str "$internalField"))))
    (pyOr nut (PyVal.field (Field.calculated (Scalar.str "0"))))
    PyVal.none PyVal.none

/-- Embedding of `WindTunnelTopAndSidesBoundaryCondition.__init__` (lines 439-452):
Slip defaults via Python `or`; the caller's nut argument is unconditionally overwritten
with `Calculated('0')`; alphat and p_rgh are not forwarded. -/
def WindTunnelTopAndSidesBoundaryCondition.init (refLevels : Option (List PyVal))
    (T U p k epsilon nut : PyVal) : Except String BoundaryCondition :=
  BoundaryCondition.init "patch" refLevels
    (pyOr T (PyVal.field Field.zeroGradient))
    (pyOr U (PyVal.field Field.slip))
    (pyOr p (PyVal.field Field.slip))
    (pyOr k (PyVal.field Field.slip))
    (pyOr epsilon (PyVal.field Field.slip))
    (PyVal.field (Field.calculated (Scalar.str "0")))
    PyVal.none PyVal.none

/-- One constructor call of the registry: the base class or one of the ten subclasses,
with the argument list its Python signature accepts (an omitted optional argument is
`PyVal.none`, the signatures' default). -/
inductive BCCall where
  | base (bcType : String) (refLevels : Option (List PyVal))
      (T U p k epsilon nut alphat p_rgh : PyVal)
  | boundingBox (refLevels : Option (List PyVal))
  | emptyBC (refLevels : Option (List PyVal))
  | indoorWall (refLevels : Option (List PyVal)) (T U p k epsilon nut alphat p_rgh : PyVal)
  | fixedInlet (refLevels : Option (List PyVal)) (T U p k epsilon nut alphat p_rgh : PyVal)
  | fixedOutlet (refLevels : Option (List PyVal)) (T U p k epsilon nut alphat p_rgh : PyVal)
  | windTunnelWall (refLevels : Option (List PyVal)) (T U p k epsilon nut : PyVal)
  | windTunnelGround (abl : ABLConditions) (refLevels : Option (List PyVal))
      (T U p k epsilon : PyVal)
  | windTunnelInlet (abl : ABLConditions) (refLevels : Option (List PyVal)) (T p nut : PyVal)
  | windTunnelOutlet (refLevels : Option (List PyVal)) (T U p k epsilon nut : PyVal)
  | windTunnelTopAndSides (refLevels : Option (List PyVal)) (T U p k epsilon nut : PyVal)

/-- Run a constructor call: dispatch to the corresponding `__init__` embedding. -/
def BCCall.run : BCCall → Except String BoundaryCondition
  | BCCall.base bcType rl T U p k e n a pr => BoundaryCondition.init bcType rl T U p k e n a pr
  | BCCall.boundingBox rl => BoundingBoxBoundaryCondition.init rl
  | BCCall.emptyBC rl => EmptyBoundaryCondition.init rl
  | BCCall.indoorWall rl T U p k e n a pr => IndoorWallBoundaryCondition.init rl T U p k e n a pr
  | BCCall.fixedInlet rl T U p k e n a pr => FixedInletBoundaryCondition.init rl T U p k e n a pr
  | BCCall.fixedOutlet rl T U p k e n a pr => FixedOutletBoundaryCondition.init rl T U p k e n a pr
  | BCCall.windTunnelWall rl T U p k e n => WindTunnelWallBoundaryCondition.init rl T U p k e n
  | BCCall.windTunnelGround abl rl T U p k e => WindTunnelGroundBoundaryCondition.init abl rl T U p k e
  | BCCall.windTunnelInlet abl rl T p n => WindTunnelInletBoundaryCondition.init abl rl T p n
  | BCCall.windTunnelOutlet rl T U p k e n => WindTunnelOutletBoundaryCondition.init rl T U p k e n
  | BCCall.windTunnelTopAndSides rl T U p k e n => WindTunnelTopAndSidesBoundaryCondition.init rl T U p k e n

/-- Test for a slot holding a Field instance (Python `isinstance(v, Field)`). -/
def PyVal.isField : PyVal → Bool
  | PyVal.field _ => true
  | _ => false

/-- All eight field slots hold Field instances. -/
def BoundaryCondition.allSlotsField (bc : BoundaryCondition) : Bool :=
  bc.T.isField && bc.U.isField && bc.p.isField && bc.k.isField &&
  bc.epsilon.isField && bc.nut.isField && bc.alphat.isField && bc.p_rgh.isField

/-- Accepted field-input shapes per spec §8: a Field instance, a well-formed mapping,
a scalar string, or an omitted input. -/
def PyVal.accepted : PyVal → Bool
  | PyVal.none => true
  | PyVal.field _ => true
  | PyVal.dict _ => true
  | PyVal.str _ => true
  | _ => false

/-- Heap of Field objects, for modelling the object-graph aspect of `duplicate`
(lines 138-140, `deepcopy(self)`): object identities are list indices, so that
in-place mutation of a shared Field object is expressible. -/
abbrev Store := List Field

/-- Object view of a constructed boundary condition record: the eight field slots
hold references (store addresses) to Field objects, in declaration order
T, U, p, k, epsilon, nut, alphat, p_rgh. -/
structure BCObject where
  type : String
  refLevels : List Int
  slotAddrs : List Nat

/-- Well-formedness: the record has its eight slots and each points into the store. -/
def BCObject.wf (bc : BCObject) (σ : Store) : Prop :=
  bc.slotAddrs.length = 8 ∧ ∀ a ∈ bc.slotAddrs, a < σ.length

/-- Embedding of `duplicate` (`deepcopy(self)`): copy the record, giving every
reachable Field object a fresh address (past the end of the current store) holding
an equal value. -/
def BCObject.duplicate (bc : BCObject) (σ : Store) : Store × BCObject :=
  (σ ++ bc.slotAddrs.map (fun a => σ.getD a Field.zeroGradient),
   { type := bc.type, refLevels := bc.refLevels,
     slotAddrs := (List.range bc.slotAddrs.length).map (fun i => σ.length + i) })

/-- In-place mutation of the Field object a slot points to. -/
def Store.write (σ : Store) (a : Nat) (v : Field) : Store := σ.set a v

/-- Contents of the Field object a slot points to. -/
def Store.read (σ : Store) (a : Nat) : Field := σ.getD a Field.zeroGradient

/-- Elimination of one monadic bind of the `Except`-embedded raising code. -/
theorem bind_ok_elim {α β : Type} {e : Except String α} {f : α → Except String β} {b : β}
    (h : e >>= f = Except.ok b) : ∃ a, e = Except.ok a ∧ f a = Except.ok b := by
  cases e with
  | error s =>
    change Except.error s = Except.ok b at h
    cases h
  | ok a => exact ⟨a, rfl, h⟩

/-- Successful base construction decomposes into successful normalization and eight
successful setter runs, and determines the record. -/
theorem init_ok_elim {bcType : String} {rl : Option (List PyVal)}
    {T U p k epsilon nut alphat p_rgh : PyVal} {bc : BoundaryCondition}
    (h : BoundaryCondition.init bcType rl T U p k epsilon nut alphat p_rgh = Except.ok bc) :
    ∃ rls tF uF pF kF eF nF aF prF,
      normalizeRefLevels rl = Except.ok rls ∧
      setField T = Except.ok tF ∧ setField U = Except.ok uF ∧
      setField p = Except.ok pF ∧ setField k = Except.ok kF ∧
      setField epsilon = Except.ok eF ∧ setField nut = Except.ok nF ∧
      setField alphat = Except.ok aF ∧ setField p_rgh = Except.ok prF ∧
      bc = { type := bcType, refLevels := rls,
             T := PyVal.field tF, U := PyVal.field uF, p := PyVal.field pF,
             k := PyVal.field kF, epsilon := PyVal.field eF, nut := PyVal.field nF,
             alphat := PyVal.field aF, p_rgh := PyVal.field prF } := by
  unfold BoundaryCondition.init at h
  obtain ⟨rls, hrl, h⟩ := bind_ok_elim h
  obtain ⟨tF, hT, h⟩ := bind_ok_elim h
  obtain ⟨uF, hU, h⟩ := bind_ok_elim h
  obtain ⟨pF, hp, h⟩ := bind_ok_elim h
  obtain ⟨kF, hk, h⟩ := bind_ok_elim h
  obtain ⟨eF, he, h⟩ := bind_ok_elim h
  obtain ⟨nF, hn, h⟩ := bind_ok_elim h
  obtain ⟨aF, ha, h⟩ := bind_ok_elim h
  obtain ⟨prF, hpr, h⟩ := bind_ok_elim h
  injection h with h
  exact ⟨rls, tF, uF, pF, kF, eF, nF, aF, prF,
         hrl, hT, hU, hp, hk, he, hn, ha, hpr, h.symm⟩

/-- Converse: successful normalization and setter runs yield the record. -/
theorem init_ok_intro {bcType : String} {rl : Option (List PyVal)}
    {T U p k epsilon nut alphat p_rgh : PyVal} {rls : List Int}
    {tF uF pF kF eF nF aF prF : Field}
    (hrl : normalizeRefLevels rl = Except.ok rls)
    (hT : setField T = Except.ok tF) (hU : setField U = Except.ok uF)
    (hp : setField p = Except.ok pF) (hk : setField k = Except.ok kF)
    (he : setField epsilon = Except.ok eF) (hn : setField nut = Except.ok nF)
    (ha : setField alphat = Except.ok aF) (hpr : setField p_rgh = Except.ok prF) :
    BoundaryCondition.init bcType rl T U p k epsilon nut alphat p_rgh =
      Except.ok { type := bcType, refLevels := rls,
                  T := PyVal.field tF, U := PyVal.field uF, p := PyVal.field pF,
                  k := PyVal.field kF, epsilon := PyVal.field eF, nut := PyVal.field nF,
                  alphat := PyVal.field aF, p_rgh := PyVal.field prF } := by
  unfold BoundaryCondition.init
  rw [hrl, hT, hU, hp, hk, he, hn, ha, hpr]
  rfl

/-- Projection form of `init_ok_elim`: each slot of a successfully constructed record
is the Field its setter computed, wrapped as a Field instance. -/
theorem init_ok_project {bcType : String} {rl : Option (List PyVal)}
    {T U p k epsilon nut alphat p_rgh : PyVal} {bc : BoundaryCondition}
    (h : BoundaryCondition.init bcType rl T U p k epsilon nut alphat p_rgh = Except.ok bc) :
    bc.type = bcType ∧
    (∀ f, setField T = Except.ok f → bc.T = PyVal.field f) ∧
    (∀ f, setField U = Except.ok f → bc.U = PyVal.field f) ∧
    (∀ f, setField p = Except.ok f → bc.p = PyVal.field f) ∧
    (∀ f, setField k = Except.ok f → bc.k = PyVal.field f) ∧
    (∀ f, setField epsilon = Except.ok f → bc.epsilon = PyVal.field f) ∧
    (∀ f, setField nut = Except.ok f → bc.nut = PyVal.field f) ∧
    (∀ f, setField alphat = Except.ok f → bc.alphat = PyVal.field f) ∧
    (∀ f, setField p_rgh = Except.ok f → bc.p_rgh = PyVal.field f) := by
  obtain ⟨rls, tF, uF, pF, kF, eF, nF, aF, prF,
          hrl, hT, hU, hp, hk, he, hn, ha, hpr, hbc⟩ := init_ok_elim h
  subst hbc
  refine ⟨rfl, ?_, ?_, ?_, ?_, ?_, ?_, ?_, ?_⟩ <;>
    (intro f hf; first
      | (rw [hT] at hf; injection hf with hf; rw [hf])
      | (rw [hU] at hf; injection hf with hf; rw [hf])
      | (rw [hp] at hf; injection hf with hf; rw [hf])
      | (rw [hk] at hf; injection hf with hf; rw [hf])
      | (rw [he] at hf; injection hf with hf; rw [hf])
      | (rw [hn] at hf; injection hf with hf; rw [hf])
      | (rw [ha] at hf; injection hf with hf; rw [hf])
      | (rw [hpr] at hf; injection hf with hf; rw [hf]))

/-- Every successful base construction leaves Field instances in all eight slots. -/
theorem init_ok_allSlotsField {bcType : String} {rl : Option (List PyVal)}
    {T U p k epsilon nut alphat p_rgh : PyVal} {bc : BoundaryCondition}
    (h : BoundaryCondition.init bcType rl T U p k epsilon nut alphat p_rgh = Except.ok bc) :
    bc.allSlotsField = true := by
  obtain ⟨rls, tF, uF, pF, kF, eF, nF, aF, prF, _, _, _, _, _, _, _, _, _, hbc⟩ :=
    init_ok_elim h
  subst hbc
  rfl

/-- The setter run of a supplied Field instance returns exactly that Field. -/
theorem setField_field (f : Field) : setField (PyVal.field f) = Except.ok f := rfl

/-- An accepted input shape (spec §8) always gets through its setter. -/
theorem setField_ok_of_accepted {v : PyVal} (h : v.accepted = true) :
    ∃ f, setField v = Except.ok f := by
  cases v with
  | none => exact ⟨Field.zeroGradient, rfl⟩
  | field f => exact ⟨f, rfl⟩
  | dict d =>
    cases d with
    | nil => exact ⟨Field.zeroGradient, rfl⟩
    | cons x xs => exact ⟨Field.ofDict (x :: xs), rfl⟩
  | str s =>
    by_cases hs : s = ""
    · subst hs
      exact ⟨Field.zeroGradient, rfl⟩
    · refine ⟨Field.ofString (Scalar.str s), ?_⟩
      have ht : pyTruthy (PyVal.str s) = true := by
        simp [pyTruthy, hs]
      unfold setField pyOr
      rw [ht]
      rfl
  | int n => cases h
  | obj i => cases h

/-- The only error `tryGetField` raises is the InvalidFieldSpec ValueError naming the
offending input. -/
theorem tryGetField_error {w : PyVal} {e : String}
    (h : tryGetField w = Except.error e) : e = invalidFieldSpec w := by
  cases w with
  | field f =>
    change Except.ok f = Except.error e at h
    cases h
  | dict d =>
    change Except.ok (Field.fromDict d) = Except.error e at h
    cases h
  | str s =>
    change Except.ok (Field.ofString (Scalar.str s)) = Except.error e at h
    cases h
  | int n =>
    change Except.ok (Field.ofString (Scalar.num (n : ℚ))) = Except.error e at h
    cases h
  | none =>
    change Except.error (invalidFieldSpec PyVal.none) = Except.error e at h
    injection h with h
    exact h.symm
  | obj i =>
    change Except.error (invalidFieldSpec (PyVal.obj i)) = Except.error e at h
    injection h with h
    exact h.symm

/-- Successful element-wise coercion relates input and output pointwise. -/
theorem mapPyInt_ok_forall2 : ∀ (l : List PyVal) (out : List Int),
    mapPyInt l = Except.ok out →
    List.Forall₂ (fun v n => pyInt v = Except.ok n) l out := by
  intro l
  induction l with
  | nil =>
    intro out h
    injection h with h
    rw [← h]
    exact List.Forall₂.nil
  | cons x xs ih =>
    intro out h
    unfold mapPyInt at h
    obtain ⟨n, hn, h⟩ := bind_ok_elim h
    obtain ⟨ns, hns, h⟩ := bind_ok_elim h
    injection h with h
    rw [← h]
    exact List.Forall₂.cons hn (ih ns hns)

/-- A non-coercible element makes the whole coercion raise. -/
theorem mapPyInt_error_of_bad : ∀ (l : List PyVal),
    (∃ v ∈ l, ∀ n, pyInt v ≠ Except.ok n) →
    ∃ e, mapPyInt l = Except.error e := by
  intro l
  induction l with
  | nil =>
    rintro ⟨v, hv, _⟩
    cases hv
  | cons x xs ih =>
    rintro ⟨v, hv, hbad⟩
    cases hpx : pyInt x with
    | error e =>
      refine ⟨e, ?_⟩
      unfold mapPyInt
      rw [hpx]
      rfl
    | ok n =>
      rcases List.mem_cons.mp hv with hvx | hvxs
      · subst hvx
        exact absurd hpx (hbad n)
      · obtain ⟨e, he⟩ := ih ⟨v, hvxs, hbad⟩
        refine ⟨e, ?_⟩
        unfold mapPyInt
        rw [hpx, he]
        rfl

/-- C2: `tryGetField`, applied to any input, returns a Field-instance input unchanged;
otherwise, when the input is a key-value mapping, returns a Field constructed from
that mapping; otherwise attempts to construct a Field from the input's string/scalar
representation; and when that attempt fails it raises the InvalidFieldSpec ValueError
identifying the offending input. -/
theorem tryGetField_dispatch (v : PyVal) :
    (∀ f, v = PyVal.field f → tryGetField v = Except.ok f) ∧
    (∀ d, v = PyVal.dict d → tryGetField v = Except.ok (Field.fromDict d)) ∧
    ((∀ f, v ≠ PyVal.field f) → (∀ d, v ≠ PyVal.dict d) →
      (∀ fl, Field.fromString v = some fl → tryGetField v = Except.ok fl) ∧
      (Field.fromString v = Option.none →
        tryGetField v = Except.error (invalidFieldSpec v))) := by
  cases v with
  | field f0 =>
    refine ⟨?_, ?_, ?_⟩
    · intro f h
      injection h with h
      rw [h]
      rfl
    · intro d h
      exact PyVal.noConfusion h
    · intro hf _
      exact absurd rfl (hf f0)
  | dict d0 =>
    refine ⟨?_, ?_, ?_⟩
    · intro f h
      exact PyVal.noConfusion h
    · intro d h
      injection h with h
      rw [h]
      rfl
    · intro _ hd
      exact absurd rfl (hd d0)
  | none =>
    refine ⟨fun f h => PyVal.noConfusion h, fun d h => PyVal.noConfusion h, fun _ _ => ⟨?_, ?_⟩⟩
    · intro fl hfl
      exact Option.noConfusion hfl
    · intro _
      rfl
  | int n =>
    refine ⟨fun f h => PyVal.noConfusion h, fun d h => PyVal.noConfusion h, fun _ _ => ⟨?_, ?_⟩⟩
    · intro fl hfl
      injection hfl with hfl
      rw [← hfl]
      rfl
    · intro h
      exact Option.noConfusion h
  | str s =>
    refine ⟨fun f h => PyVal.noConfusion h, fun d h => PyVal.noConfusion h, fun _ _ => ⟨?_, ?_⟩⟩
    · intro fl hfl
      injection hfl with hfl
      rw [← hfl]
      rfl
    · intro h
      exact Option.noConfusion h
  | obj i =>
    refine ⟨fun f h => PyVal.noConfusion h, fun d h => PyVal.noConfusion h, fun _ _ => ⟨?_, ?_⟩⟩
    · intro fl hfl
      exact Option.noConfusion hfl
    · intro _
      rfl

/-- Witness for C2 at a non-coercible concrete input: the error path fires and names
the input. -/
theorem tryGetField_dispatch_witness :
    tryGetField (PyVal.obj 0) = Except.error (invalidFieldSpec (PyVal.obj 0)) :=
  ((tryGetField_dispatch (PyVal.obj 0)).2.2 (fun _ h => PyVal.noConfusion h)
    (fun _ h => PyVal.noConfusion h)).2 rfl

/-- C3: after any successful construction — base or any specialization — every one of
the eight field slots holds a Field instance (never a raw string, dict or None); and
for every accepted input shape (Field instance, well-formed mapping, scalar string,
or omitted) the base construction succeeds with that invariant. -/
theorem slots_always_field_instances :
    (∀ (c : BCCall) (bc : BoundaryCondition), c.run = Except.ok bc →
      bc.allSlotsField = true) ∧
    (∀ (bcType : String) (rl : Option (List PyVal))
        (T U p k epsilon nut alphat p_rgh : PyVal),
      (∃ rls, normalizeRefLevels rl = Except.ok rls) →
      T.accepted = true → U.accepted = true → p.accepted = true → k.accepted = true →
      epsilon.accepted = true → nut.accepted = true → alphat.accepted = true →
      p_rgh.accepted = true →
      ∃ bc, BoundaryCondition.init bcType rl T U p k epsilon nut alphat p_rgh =
              Except.ok bc ∧ bc.allSlotsField = true) := by
  constructor
  · intro c bc h
    cases c <;> exact init_ok_allSlotsField h
  · intro bcType rl T U p k epsilon nut alphat p_rgh hrl hT hU hp hk he hn ha hpr
    obtain ⟨rls, hrls⟩ := hrl
    obtain ⟨tF, htF⟩ := setField_ok_of_accepted hT
    obtain ⟨uF, huF⟩ := setField_ok_of_accepted hU
    obtain ⟨pF, hpF⟩ := setField_ok_of_accepted hp
    obtain ⟨kF, hkF⟩ := setField_ok_of_accepted hk
    obtain ⟨eF, heF⟩ := setField_ok_of_accepted he
    obtain ⟨nF, hnF⟩ := setField_ok_of_accepted hn
    obtain ⟨aF, haF⟩ := setField_ok_of_accepted ha
    obtain ⟨prF, hprF⟩ := setField_ok_of_accepted hpr
    exact ⟨_, init_ok_intro hrls htF huF hpF hkF heF hnF haF hprF, rfl⟩

/-- Witness for C3 at a concrete successful call: the base constructor with every
argument omitted. -/
theorem slots_always_field_instances_witness :
    ({ type := "patch", refLevels := [1, 1],
       T := PyVal.field Field.zeroGradient, U := PyVal.field Field.zeroGradient,
       p := PyVal.field Field.zeroGradient, k := PyVal.field Field.zeroGradient,
       epsilon := PyVal.field Field.zeroGradient, nut := PyVal.field Field.zeroGradient,
       alphat := PyVal.field Field.zeroGradient,
       p_rgh := PyVal.field Field.zeroGradient } : BoundaryCondition).allSlotsField = true :=
  slots_always_field_instances.1
    (BCCall.base "patch" Option.none PyVal.none PyVal.none PyVal.none PyVal.none
      PyVal.none PyVal.none PyVal.none PyVal.none) _ rfl

/-- C5: a field input that no interpretation accepts (not a Field instance, mapping or
valid scalar representation) makes the construction raise the InvalidFieldSpec
ValueError; the failure is fatal to the constructor call and no record is returned. -/
theorem invalid_field_spec_fatal (bcType : String) (rl : Option (List PyVal))
    (T U p k epsilon nut alphat p_rgh : PyVal)
    (hrl : ∃ rls, normalizeRefLevels rl = Except.ok rls)
    (hbad : (∃ e, setField T = Except.error e) ∨ (∃ e, setField U = Except.error e) ∨
            (∃ e, setField p = Except.error e) ∨ (∃ e, setField k = Except.error e) ∨
            (∃ e, setField epsilon = Except.error e) ∨
            (∃ e, setField nut = Except.error e) ∨
            (∃ e, setField alphat = Except.error e) ∨
            (∃ e, setField p_rgh = Except.error e)) :
    (∃ w, BoundaryCondition.init bcType rl T U p k epsilon nut alphat p_rgh =
            Except.error (invalidFieldSpec w)) ∧
    (∀ bc, BoundaryCondition.init bcType rl T U p k epsilon nut alphat p_rgh ≠
            Except.ok bc) := by
  obtain ⟨rls, hrls⟩ := hrl
  have hex : ∃ w, BoundaryCondition.init bcType rl T U p k epsilon nut alphat p_rgh =
      Except.error (invalidFieldSpec w) := by
    cases hT : setField T with
    | error e =>
      refine ⟨pyOr T (PyVal.field Field.zeroGradient), ?_⟩
      have he := tryGetField_error hT
      unfold BoundaryCondition.init
      rw [hrls, hT, he]
      rfl
    | ok tF =>
    cases hU : setField U with
    | error e =>
      refine ⟨pyOr U (PyVal.field Field.zeroGradient), ?_⟩
      have he := tryGetField_error hU
      unfold BoundaryCondition.init
      rw [hrls, hT, hU, he]
      rfl
    | ok uF =>
    cases hp : setField p with
    | error e =>
      refine ⟨pyOr p (PyVal.field Field.zeroGradient), ?_⟩
      have he := tryGetField_error hp
      unfold BoundaryCondition.init
      rw [hrls, hT, hU, hp, he]
      rfl
    | ok pF =>
    cases hk : setField k with
    | error e =>
      refine ⟨pyOr k (PyVal.field Field.zeroGradient), ?_⟩
      have he := tryGetField_error hk
      unfold BoundaryCondition.init
      rw [hrls, hT, hU, hp, hk, he]
      rfl
    | ok kF =>
    cases he' : setField epsilon with
    | error e =>
      refine ⟨pyOr epsilon (PyVal.field Field.zeroGradient), ?_⟩
      have he := tryGetField_error he'
      unfold BoundaryCondition.init
      rw [hrls, hT, hU, hp, hk, he', he]
      rfl
    | ok eF =>
    cases hn : setField nut with
    | error e =>
      refine ⟨pyOr nut (PyVal.field Field.zeroGradient), ?_⟩
      have he := tryGetField_error hn
      unfold BoundaryCondition.init
      rw [hrls, hT, hU, hp, hk, he', hn, he]
      rfl
    | ok nF =>
    cases ha : setField alphat with
    | error e =>
      refine ⟨pyOr alphat (PyVal.field Field.zeroGradient), ?_⟩
      have he := tryGetField_error ha
      unfold BoundaryCondition.init
      rw [hrls, hT, hU, hp, hk, he', hn, ha, he]
      rfl
    | ok aF =>
    cases hpr : setField p_rgh with
    | error e =>
      refine ⟨pyOr p_rgh (PyVal.field Field.zeroGradient), ?_⟩
      have he := tryGetField_error hpr
      unfold BoundaryCondition.init
      rw [hrls, hT, hU, hp, hk, he', hn, ha, hpr, he]
      rfl
    | ok prF =>
      exfalso
      rcases hbad with ⟨e, hb⟩ | ⟨e, hb⟩ | ⟨e, hb⟩ | ⟨e, hb⟩ | ⟨e, hb⟩ | ⟨e, hb⟩ |
        ⟨e, hb⟩ | ⟨e, hb⟩
      · rw [hT] at hb; exact Except.noConfusion hb
      · rw [hU] at hb; exact Except.noConfusion hb
      · rw [hp] at hb; exact Except.noConfusion hb
      · rw [hk] at hb; exact Except.noConfusion hb
      · rw [he'] at hb; exact Except.noConfusion hb
      · rw [hn] at hb; exact Except.noConfusion hb
      · rw [ha] at hb; exact Except.noConfusion hb
      · rw [hpr] at hb; exact Except.noConfusion hb
  refine ⟨hex, ?_⟩
  intro bc hb
  obtain ⟨w, hw⟩ := hex
  rw [hw] at hb
  exact Except.noConfusion hb

/-- Witness for C5: an unrelated, non-coercible object as the k input. -/
theorem invalid_field_spec_fatal_witness :
    (∃ w, BoundaryCondition.init "patch" Option.none PyVal.none PyVal.none PyVal.none
            (PyVal.obj 7) PyVal.none PyVal.none PyVal.none PyVal.none =
            Except.error (invalidFieldSpec w)) ∧
    (∀ bc, BoundaryCondition.init "patch" Option.none PyVal.none PyVal.none PyVal.none
            (PyVal.obj 7) PyVal.none PyVal.none PyVal.none PyVal.none ≠
            Except.ok bc) :=
  invalid_field_spec_fatal "patch" Option.none PyVal.none PyVal.none PyVal.none
    (PyVal.obj 7) PyVal.none PyVal.none PyVal.none PyVal.none ⟨[1, 1], rfl⟩
    (Or.inr (Or.inr (Or.inr (Or.inl ⟨invalidFieldSpec (PyVal.obj 7), rfl⟩))))

/-- C10: any falsy field input (such as 0, the empty string, or an empty mapping) is
treated by the property setters exactly like an omitted input and replaced by the
zero-gradient default, because each setter tests truthiness (`t or ZeroGradient()`);
a caller therefore cannot set a field slot from a falsy scalar. -/
theorem falsy_field_input_ignored (v : PyVal) (h : pyTruthy v = false) :
    setField v = Except.ok Field.zeroGradient ∧ setField v = setField PyVal.none := by
  have hOr : pyOr v (PyVal.field Field.zeroGradient) = PyVal.field Field.zeroGradient := by
    unfold pyOr
    rw [h]
    rfl
  constructor
  · unfold setField
    rw [hOr]
    rfl
  · unfold setField
    rw [hOr]
    rfl

/-- Witness for C10 at the falsy inputs the claim names: the integer 0, the empty
string, and an empty mapping. -/
theorem falsy_field_input_ignored_witness :
    (setField (PyVal.int 0) = Except.ok Field.zeroGradient ∧
      setField (PyVal.int 0) = setField PyVal.none) ∧
    (setField (PyVal.str "") = Except.ok Field.zeroGradient ∧
      setField (PyVal.str "") = setField PyVal.none) ∧
    (setField (PyVal.dict []) = Except.ok Field.zeroGradient ∧
      setField (PyVal.dict []) = setField PyVal.none) :=
  ⟨falsy_field_input_ignored (PyVal.int 0) rfl,
   falsy_field_input_ignored (PyVal.str "") rfl,
   falsy_field_input_ignored (PyVal.dict []) rfl⟩

/-- C6: constructing IndoorWallBoundaryCondition with every optional field omitted
yields kind wall, velocity fixed at (0 0 0), zero-gradient pressure,
turbulent-kinetic-energy wall-function with value 0.1, dissipation-rate wall-function
with value 0.01, and turbulent-viscosity wall-function with value 0.01. -/
theorem indoorWall_omitted_defaults :
    (IndoorWallBoundaryCondition.init Option.none PyVal.none PyVal.none PyVal.none
      PyVal.none PyVal.none PyVal.none PyVal.none PyVal.none).map
      (fun bc => (bc.type, bc.U, bc.p, bc.k, bc.epsilon, bc.nut)) =
    Except.ok ("wall",
      PyVal.field (Field.fixedValue (Scalar.str "(0 0 0)")),
      PyVal.field Field.zeroGradient,
      PyVal.field (Field.kqRWallFunction (Scalar.str "0.1") true),
      PyVal.field (Field.epsilonWallFunction (Scalar.num (1 / 100)) true),
      PyVal.field (Field.nutkWallFunction (Scalar.num (1 / 100)))) := rfl

/-- C4 counterexample: a three-element refLevels input is coerced element-wise and
produces a three-tuple, so the result is not always a 2-tuple of ints. -/
theorem refLevels_three_tuple :
    (BoundaryCondition.init "patch" (some [PyVal.int 2, PyVal.int 3, PyVal.int 4])
      PyVal.none PyVal.none PyVal.none PyVal.none PyVal.none PyVal.none PyVal.none
      PyVal.none).map (fun bc => bc.refLevels) = Except.ok [2, 3, 4] ∧
    ([2, 3, 4] : List Int).length ≠ 2 :=
  ⟨rfl, by decide⟩

/-- C4 amended: an omitted (or empty, hence falsy) refLevels input normalizes to
(1, 1); otherwise each element is coerced to an integer (so ["2", "3"] normalizes to
(2, 3)), producing a tuple of the same length as the input — a 2-tuple exactly when
the input has two elements; a non-coercible element makes the construction raise
(the InvalidRefinementLevel failure). -/
theorem refLevels_normalization :
    (∀ rl, (rl = Option.none ∨ rl = some []) → normalizeRefLevels rl = Except.ok [1, 1]) ∧
    (normalizeRefLevels (some [PyVal.str "2", PyVal.str "3"]) = Except.ok [2, 3]) ∧
    (∀ l out, normalizeRefLevels (some l) = Except.ok out → l ≠ [] →
      List.Forall₂ (fun v n => pyInt v = Except.ok n) l out) ∧
    (∀ l, (∃ v ∈ l, ∀ n, pyInt v ≠ Except.ok n) →
      ∃ e, normalizeRefLevels (some l) = Except.error e) := by
  refine ⟨?_, rfl, ?_, ?_⟩
  · rintro rl (rfl | rfl) <;> rfl
  · intro l out h hne
    apply mapPyInt_ok_forall2
    cases l with
    | nil => exact absurd rfl hne
    | cons x xs => exact h
  · intro l hbad
    cases l with
    | nil =>
      obtain ⟨v, hv, -⟩ := hbad
      cases hv
    | cons x xs =>
      obtain ⟨e, he⟩ := mapPyInt_error_of_bad _ hbad
      exact ⟨e, he⟩

/-- Witness for C4 as amended: the coercion of ["2", "3"] is pointwise. -/
theorem refLevels_normalization_witness :
    List.Forall₂ (fun v n => pyInt v = Except.ok n) [PyVal.str "2", PyVal.str "3"]
      ([2, 3] : List Int) :=
  refLevels_normalization.2.2.1 [PyVal.str "2", PyVal.str "3"] [2, 3] rfl (by decide)

/-- C7 counterexample: with the T argument omitted, FixedInletBoundaryCondition's
constructed record holds the substituted zero-gradient default in its temperature
slot — exactly the value the base setter substitutes for an omitted field — so the
temperature slot is not left without a substituted default. -/
theorem fixedInlet_T_defaulted_when_omitted :
    (FixedInletBoundaryCondition.init Option.none PyVal.none PyVal.none PyVal.none
      PyVal.none PyVal.none PyVal.none PyVal.none PyVal.none).map (fun bc => bc.T) =
      Except.ok (PyVal.field Field.zeroGradient) ∧
    setField PyVal.none = Except.ok Field.zeroGradient :=
  ⟨rfl, rfl⟩

/-- C7 amended: FixedInletBoundaryCondition itself substitutes no inlet-specific
default for T — a truthy T is forwarded unchanged and an omitted or falsy T reaches
the base as None, where the base property setter assigns it the generic zero-gradient
default (unlike the other field slots, which receive the inlet patch defaults). -/
theorem fixedInlet_T_optional (rl : Option (List PyVal))
    (T U p k epsilon nut alphat p_rgh : PyVal) (bc : BoundaryCondition)
    (h : FixedInletBoundaryCondition.init rl T U p k epsilon nut alphat p_rgh =
      Except.ok bc) :
    (pyTruthy T = false → bc.T = PyVal.field Field.zeroGradient) ∧
    (∀ f, T = PyVal.field f → bc.T = PyVal.field f) := by
  unfold FixedInletBoundaryCondition.init at h
  obtain ⟨-, pT, -, -, -, -, -, -, -⟩ := init_ok_project h
  constructor
  · intro hf
    apply pT Field.zeroGradient
    have hNone : (if pyTruthy T then T else PyVal.none) = PyVal.none := by
      rw [hf]
      rfl
    rw [hNone]
    rfl
  · intro f hf
    subst hf
    exact pT f rfl

/-- Concrete FixedInletBoundaryCondition record with a supplied temperature and all
other optional fields omitted. -/
def fixedInletWithT : BoundaryCondition :=
  { type := "patch", refLevels := [1, 1],
    T := PyVal.field (Field.fixedValue (Scalar.str "300")),
    U := PyVal.field (Field.fixedValue (Scalar.str "(0 0 0)")),
    p := PyVal.field Field.zeroGradient,
    k := PyVal.field (Field.fixedValue (Scalar.str "0.1")),
    epsilon := PyVal.field (Field.fixedValue (Scalar.str "0.01")),
    nut := PyVal.field (Field.calculated (Scalar.str "0")),
    alphat := PyVal.field Field.zeroGradient,
    p_rgh := PyVal.field Field.zeroGradient }

/-- Witness for C7 as amended: a supplied fixed-value temperature is forwarded
unchanged into the constructed record. -/
theorem fixedInlet_T_optional_witness :
    fixedInletWithT.T = PyVal.field (Field.fixedValue (Scalar.str "300")) :=
  (fixedInlet_T_optional Option.none (PyVal.field (Field.fixedValue (Scalar.str "300")))
    PyVal.none PyVal.none PyVal.none PyVal.none PyVal.none PyVal.none PyVal.none
    fixedInletWithT rfl).2 _ rfl

/-- C1 counterexample: FixedInletBoundaryCondition accepts a nut argument but never
forwards it — a caller-supplied Slip field is silently replaced by the fixed
Calculated 0 value even though the argument was not omitted. -/
theorem fixedInlet_drops_nut :
    (FixedInletBoundaryCondition.init Option.none PyVal.none PyVal.none PyVal.none
      PyVal.none PyVal.none (PyVal.field Field.slip) PyVal.none PyVal.none).map
      (fun bc => bc.nut) = Except.ok (PyVal.field (Field.calculated (Scalar.str "0"))) ∧
    Field.calculated (Scalar.str "0") ≠ Field.slip :=
  ⟨rfl, by decide⟩

/-- C1 amended: each specialization forwards a supplied (truthy) field argument to the
base constructor as-is and substitutes its fixed default when the argument is omitted
or falsy — except that FixedInletBoundaryCondition and FixedOutletBoundaryCondition
unconditionally overwrite their nut, alphat and p_rgh arguments and
WindTunnelTopAndSidesBoundaryCondition unconditionally overwrites its nut argument;
BoundingBoxBoundaryCondition and EmptyBoundaryCondition accept no field arguments and
both discard their refLevels argument (overwriting it with None).  Stated per class:
supplied Field instances land in the record's slots unchanged (or the overwritten
value lands, for the dropped slots); an all-omitted call produces exactly the
defaults table; and a call whose field arguments are all falsy (the non-None value 0)
is identical to the all-omitted call. -/
theorem specialization_forwarding (rl : Option (List PyVal)) (abl : ABLConditions)
    (fT fU fp fk fe fn fa fpr : Field) :
    (∀ bc, IndoorWallBoundaryCondition.init rl (PyVal.field fT) (PyVal.field fU)
        (PyVal.field fp) (PyVal.field fk) (PyVal.field fe) (PyVal.field fn)
        (PyVal.field fa) (PyVal.field fpr) = Except.ok bc →
      bc.T = PyVal.field fT ∧ bc.U = PyVal.field fU ∧ bc.p = PyVal.field fp ∧
      bc.k = PyVal.field fk ∧ bc.epsilon = PyVal.field fe ∧ bc.nut = PyVal.field fn ∧
      bc.alphat = PyVal.field fa ∧ bc.p_rgh = PyVal.field fpr) ∧
    (∀ bc, FixedInletBoundaryCondition.init rl (PyVal.field fT) (PyVal.field fU)
        (PyVal.field fp) (PyVal.field fk) (PyVal.field fe) (PyVal.field fn)
        (PyVal.field fa) (PyVal.field fpr) = Except.ok bc →
      bc.T = PyVal.field fT ∧ bc.U = PyVal.field fU ∧ bc.p = PyVal.field fp ∧
      bc.k = PyVal.field fk ∧ bc.epsilon = PyVal.field fe ∧
      bc.nut = PyVal.field (Field.calculated (Scalar.str "0")) ∧
      bc.alphat = PyVal.field Field.zeroGradient ∧
      bc.p_rgh = PyVal.field Field.zeroGradient) ∧
    (∀ bc, FixedOutletBoundaryCondition.init rl (PyVal.field fT) (PyVal.field fU)
        (PyVal.field fp) (PyVal.field fk) (PyVal.field fe) (PyVal.field fn)
        (PyVal.field fa) (PyVal.field fpr) = Except.ok bc →
      bc.T = PyVal.field fT ∧ bc.U = PyVal.field fU ∧ bc.p = PyVal.field fp ∧
      bc.k = PyVal.field fk ∧ bc.epsilon = PyVal.field fe ∧
      bc.nut = PyVal.field (Field.calculated (Scalar.str "0")) ∧
      bc.alphat = PyVal.field Field.zeroGradient ∧
      bc.p_rgh = PyVal.field Field.zeroGradient) ∧
    (∀ bc, WindTunnelWallBoundaryCondition.init rl (PyVal.field fT) (PyVal.field fU)
        (PyVal.field fp) (PyVal.field fk) (PyVal.field fe) (PyVal.field fn) =
        Except.ok bc →
      bc.T = PyVal.field fT ∧ bc.U = PyVal.field fU ∧ bc.p = PyVal.field fp ∧
      bc.k = PyVal.field fk ∧ bc.epsilon = PyVal.field fe ∧ bc.nut = PyVal.field fn) ∧
    (∀ bc, WindTunnelGroundBoundaryCondition.init abl rl (PyVal.field fT)
        (PyVal.field fU) (PyVal.field fp) (PyVal.field fk) (PyVal.field fe) =
        Except.ok bc →
      bc.T = PyVal.field fT ∧ bc.U = PyVal.field fU ∧ bc.p = PyVal.field fp ∧
      bc.k = PyVal.field fk ∧ bc.epsilon = PyVal.field fe ∧
      bc.nut = PyVal.field (Field.nutkAtmRoughWallFunction abl (Scalar.str "uniform 0"))) ∧
    (∀ bc, WindTunnelInletBoundaryCondition.init abl rl (PyVal.field fT)
        (PyVal.field fp) (PyVal.field fn) = Except.ok bc →
      bc.T = PyVal.field fT ∧ bc.p = PyVal.field fp ∧ bc.nut = PyVal.field fn ∧
      bc.U = PyVal.field (Field.atmBoundaryLayerInletVelocity abl) ∧
      bc.k = PyVal.field (Field.atmBoundaryLayerInletK abl) ∧
      bc.epsilon = PyVal.field (Field.atmBoundaryLayerInletEpsilon abl)) ∧
    (∀ bc, WindTunnelOutletBoundaryCondition.init rl (PyVal.field fT) (PyVal.field fU)
        (PyVal.field fp) (PyVal.field fk) (PyVal.field fe) (PyVal.field fn) =
        Except.ok bc →
      bc.T = PyVal.field fT ∧ bc.U = PyVal.field fU ∧ bc.p = PyVal.field fp ∧
      bc.k = PyVal.field fk ∧ bc.epsilon = PyVal.field fe ∧ bc.nut = PyVal.field fn) ∧
    (∀ bc, WindTunnelTopAndSidesBoundaryCondition.init rl (PyVal.field fT)
        (PyVal.field fU) (PyVal.field fp) (PyVal.field fk) (PyVal.field fe)
        (PyVal.field fn) = Except.ok bc →
      bc.T = PyVal.field fT ∧ bc.U = PyVal.field fU ∧ bc.p = PyVal.field fp ∧
      bc.k = PyVal.field fk ∧ bc.epsilon = PyVal.field fe ∧
      bc.nut = PyVal.field (Field.calculated (Scalar.str "0"))) ∧
    (∀ rl0, BoundingBoxBoundaryCondition.init rl0 = Except.ok
      { type := "wall", refLevels := [1, 1],
        T := PyVal.field Field.zeroGradient, U := PyVal.field Field.zeroGradient,
        p := PyVal.field Field.zeroGradient, k := PyVal.field Field.zeroGradient,
        epsilon := PyVal.field Field.zeroGradient, nut := PyVal.field Field.zeroGradient,
        alphat := PyVal.field Field.zeroGradient,
        p_rgh := PyVal.field Field.zeroGradient }) ∧
    (∀ rl0, EmptyBoundaryCondition.init rl0 = Except.ok
      { type := "wall", refLevels := [1, 1],
        T := PyVal.field Field.empty, U := PyVal.field Field.empty,
        p := PyVal.field Field.empty, k := PyVal.field Field.empty,
        epsilon := PyVal.field Field.empty, nut := PyVal.field Field.empty,
        alphat := PyVal.field Field.empty, p_rgh := PyVal.field Field.empty }) ∧
    (IndoorWallBoundaryCondition.init Option.none PyVal.none PyVal.none PyVal.none
      PyVal.none PyVal.none PyVal.none PyVal.none PyVal.none = Except.ok
      { type := "wall", refLevels := [1, 1],
        T := PyVal.field Field.zeroGradient,
        U := PyVal.field (Field.fixedValue (Scalar.str "(0 0 0)")),
        p := PyVal.field Field.zeroGradient,
        k := PyVal.field (Field.kqRWallFunction (Scalar.str "0.1") true),
        epsilon := PyVal.field (Field.epsilonWallFunction (Scalar.num (1 / 100)) true),
        nut := PyVal.field (Field.nutkWallFunction (Scalar.num (1 / 100))),
        alphat := PyVal.field (Field.alphatJayatillekeWallFunction (Scalar.str "0")
          true (Scalar.str "0.85")),
        p_rgh := PyVal.field (Field.fixedFluxPressure (Scalar.str "0") true
          (Scalar.str "rhok")) }) ∧
    (FixedInletBoundaryCondition.init Option.none PyVal.none PyVal.none PyVal.none
      PyVal.none PyVal.none PyVal.none PyVal.none PyVal.none = Except.ok
      { type := "patch", refLevels := [1, 1],
        T := PyVal.field Field.zeroGradient,
        U := PyVal.field (Field.fixedValue (Scalar.str "(0 0 0)")),
        p := PyVal.field Field.zeroGradient,
        k := PyVal.field (Field.fixedValue (Scalar.str "0.1")),
        epsilon := PyVal.field (Field.fixedValue (Scalar.str "0.01")),
        nut := PyVal.field (Field.calculated (Scalar.str "0")),
        alphat := PyVal.field Field.zeroGradient,
        p_rgh := PyVal.field Field.zeroGradient }) ∧
    (FixedOutletBoundaryCondition.init Option.none PyVal.none PyVal.none PyVal.none
      PyVal.none PyVal.none PyVal.none PyVal.none PyVal.none = Except.ok
      { type := "patch", refLevels := [1, 1],
        T := PyVal.field Field.zeroGradient, U := PyVal.field Field.zeroGradient,
        p := PyVal.field (Field.fixedValue (Scalar.str "0")),
        k := PyVal.field Field.zeroGradient, epsilon := PyVal.field Field.zeroGradient,
        nut := PyVal.field (Field.calculated (Scalar.str "0")),
        alphat := PyVal.field Field.zeroGradient,
        p_rgh := PyVal.field Field.zeroGradient }) ∧
    (WindTunnelWallBoundaryCondition.init Option.none PyVal.none PyVal.none
      PyVal.none PyVal.none PyVal.none PyVal.none = Except.ok
      { type := "wall", refLevels := [1, 1],
        T := PyVal.field Field.zeroGradient,
        U := PyVal.field (Field.fixedValue (Scalar.str "(0 0 0)")),
        p := PyVal.field Field.zeroGradient,
        k := PyVal.field (Field.kqRWallFunction (Scalar.str "$internalField") false),
        epsilon := PyVal.field (Field.epsilonWallFunction
          (Scalar.str "$internalField") false),
        nut := PyVal.field (Field.nutkWallFunction (Scalar.str "0.0")),
        alphat := PyVal.field Field.zeroGradient,
        p_rgh := PyVal.field Field.zeroGradient }) ∧
    (WindTunnelGroundBoundaryCondition.init abl Option.none PyVal.none PyVal.none
      PyVal.none PyVal.none PyVal.none = Except.ok
      { type := "wall", refLevels := [1, 1],
        T := PyVal.field Field.zeroGradient,
        U := PyVal.field (Field.fixedValue (Scalar.str "(0 0 0)")),
        p := PyVal.field Field.zeroGradient,
        k := PyVal.field Field.zeroGradient, epsilon := PyVal.field Field.zeroGradient,
        nut := PyVal.field (Field.nutkAtmRoughWallFunction abl (Scalar.str "uniform 0")),
        alphat := PyVal.field Field.zeroGradient,
        p_rgh := PyVal.field Field.zeroGradient }) ∧
    (WindTunnelInletBoundaryCondition.init abl Option.none PyVal.none PyVal.none
      PyVal.none = Except.ok
      { type := "patch", refLevels := [1, 1],
        T := PyVal.field Field.zeroGradient,
        U := PyVal.field (Field.atmBoundaryLayerInletVelocity abl),
        p := PyVal.field Field.zeroGradient,
        k := PyVal.field (Field.atmBoundaryLayerInletK abl),
        epsilon := PyVal.field (Field.atmBoundaryLayerInletEpsilon abl),
        nut := PyVal.field (Field.calculated (Scalar.str "0")),
        alphat := PyVal.field Field.zeroGradient,
        p_rgh := PyVal.field Field.zeroGradient }) ∧
    (WindTunnelOutletBoundaryCondition.init Option.none PyVal.none PyVal.none
      PyVal.none PyVal.none PyVal.none PyVal.none = Except.ok
      { type := "patch", refLevels := [1, 1],
        T := PyVal.field Field.zeroGradient,
        U := PyVal.field (Field.inletOutlet (Scalar.str "uniform (0 0 0)")
          (Scalar.str "$internalField")),
        p := PyVal.field (Field.fixedValue (Scalar.str "$pressure")),
        k := PyVal.field (Field.inletOutlet (Scalar.str "uniform $turbulentKE")
          (Scalar.str "$internalField")),
        epsilon := PyVal.field (Field.inletOutlet
          (Scalar.str "uniform $turbulentEpsilon") (Scalar.str "$internalField")),
        nut := PyVal.field (Field.calculated (Scalar.str "0")),
        alphat := PyVal.field Field.zeroGradient,
        p_rgh := PyVal.field Field.zeroGradient }) ∧
    (WindTunnelTopAndSidesBoundaryCondition.init Option.none PyVal.none PyVal.none
      PyVal.none PyVal.none PyVal.none PyVal.none = Except.ok
      { type := "patch", refLevels := [1, 1],
        T := PyVal.field Field.zeroGradient, U := PyVal.field Field.slip,
        p := PyVal.field Field.slip, k := PyVal.field Field.slip,
        epsilon := PyVal.field Field.slip,
        nut := PyVal.field (Field.calculated (Scalar.str "0")),
        alphat := PyVal.field Field.zeroGradient,
        p_rgh := PyVal.field Field.zeroGradient }) ∧
    (IndoorWallBoundaryCondition.init Option.none (PyVal.int 0) (PyVal.int 0)
      (PyVal.int 0) (PyVal.int 0) (PyVal.int 0) (PyVal.int 0) (PyVal.int 0)
      (PyVal.int 0) =
     IndoorWallBoundaryCondition.init Option.none PyVal.none PyVal.none PyVal.none
      PyVal.none PyVal.none PyVal.none PyVal.none PyVal.none) ∧
    (FixedInletBoundaryCondition.init Option.none (PyVal.int 0) (PyVal.int 0)
      (PyVal.int 0) (PyVal.int 0) (PyVal.int 0) (PyVal.int 0) (PyVal.int 0)
      (PyVal.int 0) =
     FixedInletBoundaryCondition.init Option.none PyVal.none PyVal.none PyVal.none
      PyVal.none PyVal.none PyVal.none PyVal.none PyVal.none) ∧
    (FixedOutletBoundaryCondition.init Option.none (PyVal.int 0) (PyVal.int 0)
      (PyVal.int 0) (PyVal.int 0) (PyVal.int 0) (PyVal.int 0) (PyVal.int 0)
      (PyVal.int 0) =
     FixedOutletBoundaryCondition.init Option.none PyVal.none PyVal.none PyVal.none
      PyVal.none PyVal.none PyVal.none PyVal.none PyVal.none) ∧
    (WindTunnelWallBoundaryCondition.init Option.none (PyVal.int 0) (PyVal.int 0)
      (PyVal.int 0) (PyVal.int 0) (PyVal.int 0) (PyVal.int 0) =
     WindTunnelWallBoundaryCondition.init Option.none PyVal.none PyVal.none
      PyVal.none PyVal.none PyVal.none PyVal.none) ∧
    (WindTunnelGroundBoundaryCondition.init abl Option.none (PyVal.int 0)
      (PyVal.int 0) (PyVal.int 0) (PyVal.int 0) (PyVal.int 0) =
     WindTunnelGroundBoundaryCondition.init abl Option.none PyVal.none PyVal.none
      PyVal.none PyVal.none PyVal.none) ∧
    (WindTunnelInletBoundaryCondition.init abl Option.none (PyVal.int 0)
      (PyVal.int 0) (PyVal.int 0) =
     WindTunnelInletBoundaryCondition.init abl Option.none PyVal.none PyVal.none
      PyVal.none) ∧
    (WindTunnelOutletBoundaryCondition.init Option.none (PyVal.int 0) (PyVal.int 0)
      (PyVal.int 0) (PyVal.int 0) (PyVal.int 0) (PyVal.int 0) =
     WindTunnelOutletBoundaryCondition.init Option.none PyVal.none PyVal.none
      PyVal.none PyVal.none PyVal.none PyVal.none) ∧
    (WindTunnelTopAndSidesBoundaryCondition.init Option.none (PyVal.int 0)
      (PyVal.int 0) (PyVal.int 0) (PyVal.int 0) (PyVal.int 0) (PyVal.int 0) =
     WindTunnelTopAndSidesBoundaryCondition.init Option.none PyVal.none PyVal.none
      PyVal.none PyVal.none PyVal.none PyVal.none) := by
  refine ⟨?_, ?_, ?_, ?_, ?_, ?_, ?_, ?_, fun rl0 => rfl, fun rl0 => rfl,
    rfl, rfl, rfl, rfl, rfl, rfl, rfl, rfl,
    rfl, rfl, rfl, rfl, rfl, rfl, rfl, rfl⟩
  · intro bc h
    unfold IndoorWallBoundaryCondition.init at h
    obtain ⟨-, pT, pU, pp, pk, pe, pn, pa, ppr⟩ := init_ok_project h
    exact ⟨pT fT rfl, pU fU rfl, pp fp rfl, pk fk rfl, pe fe rfl, pn fn rfl,
           pa fa rfl, ppr fpr rfl⟩
  · intro bc h
    unfold FixedInletBoundaryCondition.init at h
    obtain ⟨-, pT, pU, pp, pk, pe, pn, pa, ppr⟩ := init_ok_project h
    exact ⟨pT fT rfl, pU fU rfl, pp fp rfl, pk fk rfl, pe fe rfl,
           pn (Field.calculated (Scalar.str "0")) rfl, pa Field.zeroGradient rfl,
           ppr Field.zeroGradient rfl⟩
  · intro bc h
    unfold FixedOutletBoundaryCondition.init at h
    obtain ⟨-, pT, pU, pp, pk, pe, pn, pa, ppr⟩ := init_ok_project h
    exact ⟨pT fT rfl, pU fU rfl, pp fp rfl, pk fk rfl, pe fe rfl,
           pn (Field.calculated (Scalar.str "0")) rfl, pa Field.zeroGradient rfl,
           ppr Field.zeroGradient rfl⟩
  · intro bc h
    unfold WindTunnelWallBoundaryCondition.init at h
    obtain ⟨-, pT, pU, pp, pk, pe, pn, -, -⟩ := init_ok_project h
    exact ⟨pT fT rfl, pU fU rfl, pp fp rfl, pk fk rfl, pe fe rfl, pn fn rfl⟩
  · intro bc h
    unfold WindTunnelGroundBoundaryCondition.init at h
    obtain ⟨-, pT, pU, pp, pk, pe, pn, -, -⟩ := init_ok_project h
    exact ⟨pT fT rfl, pU fU rfl, pp fp rfl, pk fk rfl, pe fe rfl,
           pn (Field.nutkAtmRoughWallFunction abl (Scalar.str "uniform 0")) rfl⟩
  · intro bc h
    unfold WindTunnelInletBoundaryCondition.init at h
    obtain ⟨-, pT, pU, pp, pk, pe, pn, -, -⟩ := init_ok_project h
    exact ⟨pT fT rfl, pp fp rfl, pn fn rfl,
           pU (Field.atmBoundaryLayerInletVelocity abl) rfl,
           pk (Field.atmBoundaryLayerInletK abl) rfl,
           pe (Field.atmBoundaryLayerInletEpsilon abl) rfl⟩
  · intro bc h
    unfold WindTunnelOutletBoundaryCondition.init at h
    obtain ⟨-, pT, pU, pp, pk, pe, pn, -, -⟩ := init_ok_project h
    exact ⟨pT fT rfl, pU fU rfl, pp fp rfl, pk fk rfl, pe fe rfl, pn fn rfl⟩
  · intro bc h
    unfold WindTunnelTopAndSidesBoundaryCondition.init at h
    obtain ⟨-, pT, pU, pp, pk, pe, pn, -, -⟩ := init_ok_project h
    exact ⟨pT fT rfl, pU fU rfl, pp fp rfl, pk fk rfl, pe fe rfl,
           pn (Field.calculated (Scalar.str "0")) rfl⟩

/-- Concrete IndoorWallBoundaryCondition record with all eight fields supplied. -/
def indoorWallAllSupplied : BoundaryCondition :=
  { type := "wall", refLevels := [1, 1],
    T := PyVal.field (Field.fixedValue (Scalar.str "w1")),
    U := PyVal.field (Field.fixedValue (Scalar.str "w2")),
    p := PyVal.field (Field.fixedValue (Scalar.str "w3")),
    k := PyVal.field (Field.fixedValue (Scalar.str "w4")),
    epsilon := PyVal.field (Field.fixedValue (Scalar.str "w5")),
    nut := PyVal.field (Field.fixedValue (Scalar.str "w6")),
    alphat := PyVal.field (Field.fixedValue (Scalar.str "w7")),
    p_rgh := PyVal.field (Field.fixedValue (Scalar.str "w8")) }

/-- Witness for C1 as amended: eight supplied fields all land unchanged in an
IndoorWallBoundaryCondition record. -/
theorem specialization_forwarding_witness :
    indoorWallAllSupplied.T = PyVal.field (Field.fixedValue (Scalar.str "w1")) ∧
    indoorWallAllSupplied.U = PyVal.field (Field.fixedValue (Scalar.str "w2")) ∧
    indoorWallAllSupplied.p = PyVal.field (Field.fixedValue (Scalar.str "w3")) ∧
    indoorWallAllSupplied.k = PyVal.field (Field.fixedValue (Scalar.str "w4")) ∧
    indoorWallAllSupplied.epsilon = PyVal.field (Field.fixedValue (Scalar.str "w5")) ∧
    indoorWallAllSupplied.nut = PyVal.field (Field.fixedValue (Scalar.str "w6")) ∧
    indoorWallAllSupplied.alphat = PyVal.field (Field.fixedValue (Scalar.str "w7")) ∧
    indoorWallAllSupplied.p_rgh = PyVal.field (Field.fixedValue (Scalar.str "w8")) :=
  (specialization_forwarding Option.none
    ⟨Scalar.str "10", Scalar.str "2", Scalar.str "0.1"⟩
    (Field.fixedValue (Scalar.str "w1")) (Field.fixedValue (Scalar.str "w2"))
    (Field.fixedValue (Scalar.str "w3")) (Field.fixedValue (Scalar.str "w4"))
    (Field.fixedValue (Scalar.str "w5")) (Field.fixedValue (Scalar.str "w6"))
    (Field.fixedValue (Scalar.str "w7")) (Field.fixedValue (Scalar.str "w8"))).1
    indoorWallAllSupplied rfl

/-- Writing one Field object leaves every other address unchanged. -/
theorem store_read_write_ne (σ : Store) {a b : Nat} (hne : a ≠ b) (v : Field) :
    Store.read (Store.write σ a v) b = Store.read σ b := by
  unfold Store.read Store.write
  simp only [List.getD_eq_getElem?_getD]
  rw [List.getElem?_set_ne hne]

/-- The duplicate's slot addresses are all fresh: disjoint from the source's. -/
theorem duplicate_fresh_addrs {σ : Store} {bc : BCObject} (h : bc.wf σ) :
    ∀ a ∈ bc.slotAddrs, ∀ b ∈ ((bc.duplicate σ).2).slotAddrs, a ≠ b := by
  intro a ha b hb
  obtain ⟨-, hin⟩ := h
  have haσ := hin a ha
  unfold BCObject.duplicate at hb
  simp only [List.mem_map, List.mem_range] at hb
  obtain ⟨j, -, hj⟩ := hb
  omega

/-- The duplicate's i-th slot address is the i-th fresh address. -/
theorem duplicate_addr_at {σ : Store} {bc : BCObject} (h8 : bc.slotAddrs.length = 8)
    {i : Nat} (hi : i < 8) :
    ((bc.duplicate σ).2).slotAddrs.getD i 0 = σ.length + i := by
  have hi' : i < bc.slotAddrs.length := by omega
  unfold BCObject.duplicate
  simp only [List.getD_eq_getElem?_getD, List.getElem?_map, List.getElem?_range hi']
  rfl

/-- The duplicate's i-th slot object holds the same Field value as the source's. -/
theorem duplicate_data_eq {σ : Store} {bc : BCObject} (h : bc.wf σ) {i : Nat}
    (hi : i < 8) :
    Store.read (bc.duplicate σ).1 (((bc.duplicate σ).2).slotAddrs.getD i 0) =
    Store.read (bc.duplicate σ).1 (bc.slotAddrs.getD i 0) := by
  obtain ⟨h8, hin⟩ := h
  have hi' : i < bc.slotAddrs.length := by omega
  have ha : bc.slotAddrs.getD i 0 ∈ bc.slotAddrs := by
    simp only [List.getD_eq_getElem?_getD, List.getElem?_eq_getElem hi', Option.getD_some]
    exact List.getElem_mem hi'
  have haσ : bc.slotAddrs.getD i 0 < σ.length := hin _ ha
  rw [duplicate_addr_at h8 hi]
  unfold BCObject.duplicate Store.read
  rw [List.getD_append_right _ _ _ _ (Nat.le_add_right σ.length i),
      List.getD_append _ _ _ _ haσ, Nat.add_sub_cancel_left]
  simp only [List.getD_eq_getElem?_getD, List.getElem?_map,
    List.getElem?_eq_getElem hi', Option.map_some, Option.getD_some]
  rfl

/-- C8: `duplicate` returns a fully independent deep copy — the copy agrees with the
original in kind, refinement levels and the Field value each of the eight slots reads,
shares no slot address with it, and writing through any slot of the copy or of the
original leaves every slot of the other reading the same value. -/
theorem duplicate_deep_independent (σ : Store) (bc : BCObject) (h : bc.wf σ) :
    ((bc.duplicate σ).2).type = bc.type ∧
    ((bc.duplicate σ).2).refLevels = bc.refLevels ∧
    ((bc.duplicate σ).2).slotAddrs.length = bc.slotAddrs.length ∧
    (∀ i, i < 8 →
      Store.read (bc.duplicate σ).1 (((bc.duplicate σ).2).slotAddrs.getD i 0) =
      Store.read (bc.duplicate σ).1 (bc.slotAddrs.getD i 0)) ∧
    (∀ a ∈ bc.slotAddrs, ∀ b ∈ ((bc.duplicate σ).2).slotAddrs, a ≠ b) ∧
    (∀ b ∈ ((bc.duplicate σ).2).slotAddrs, ∀ v : Field, ∀ a ∈ bc.slotAddrs,
      Store.read (Store.write (bc.duplicate σ).1 b v) a =
        Store.read (bc.duplicate σ).1 a) ∧
    (∀ a ∈ bc.slotAddrs, ∀ v : Field, ∀ b ∈ ((bc.duplicate σ).2).slotAddrs,
      Store.read (Store.write (bc.duplicate σ).1 a v) b =
        Store.read (bc.duplicate σ).1 b) := by
  refine ⟨rfl, rfl, ?_, fun i hi => duplicate_data_eq h hi,
          duplicate_fresh_addrs h, ?_, ?_⟩
  · unfold BCObject.duplicate
    simp
  · intro b hb v a ha
    exact store_read_write_ne _ (Ne.symm (duplicate_fresh_addrs h a ha b hb)) v
  · intro a ha v b hb
    exact store_read_write_ne _ (duplicate_fresh_addrs h a ha b hb) v

/-- Concrete store of eight Field objects for the C8 witness. -/
def storeW : Store :=
  [Field.zeroGradient, Field.fixedValue (Scalar.str "(0 0 0)"), Field.zeroGradient,
   Field.kqRWallFunction (Scalar.str "0.1") true,
   Field.epsilonWallFunction (Scalar.str "0.01") true,
   Field.nutkWallFunction (Scalar.str "0.01"), Field.zeroGradient, Field.zeroGradient]

/-- Concrete boundary condition object whose slots reference `storeW`. -/
def bcObjW : BCObject :=
  { type := "wall", refLevels := [1, 1], slotAddrs := [0, 1, 2, 3, 4, 5, 6, 7] }

/-- Witness for C8 at a concrete well-formed object: the duplicate keeps the kind. -/
theorem duplicate_deep_independent_witness :
    ((bcObjW.duplicate storeW).2).type = bcObjW.type :=
  (duplicate_deep_independent storeW bcObjW ⟨rfl, by decide⟩).1

/-- C9: WindTunnelInletBoundaryCondition's velocity, turbulent-kinetic-energy and
dissipation-rate defaults are a deterministic function of the supplied ABL parameter
set: equal parameter sets give identical defaults, and a different reference velocity
gives a different fixed velocity field. -/
theorem windTunnelInlet_abl_deterministic (abl1 abl2 : ABLConditions)
    (rl : Option (List PyVal)) (T p nut : PyVal) (bc1 bc2 : BoundaryCondition)
    (h1 : WindTunnelInletBoundaryCondition.init abl1 rl T p nut = Except.ok bc1)
    (h2 : WindTunnelInletBoundaryCondition.init abl2 rl T p nut = Except.ok bc2) :
    (abl1 = abl2 → bc1.U = bc2.U ∧ bc1.k = bc2.k ∧ bc1.epsilon = bc2.epsilon) ∧
    (abl1.Uref ≠ abl2.Uref → bc1.U ≠ bc2.U) := by
  unfold WindTunnelInletBoundaryCondition.init at h1 h2
  obtain ⟨-, -, pU1, -, pk1, pe1, -, -, -⟩ := init_ok_project h1
  obtain ⟨-, -, pU2, -, pk2, pe2, -, -, -⟩ := init_ok_project h2
  have hU1 := pU1 (Field.atmBoundaryLayerInletVelocity abl1) rfl
  have hU2 := pU2 (Field.atmBoundaryLayerInletVelocity abl2) rfl
  have hk1 := pk1 (Field.atmBoundaryLayerInletK abl1) rfl
  have hk2 := pk2 (Field.atmBoundaryLayerInletK abl2) rfl
  have he1 := pe1 (Field.atmBoundaryLayerInletEpsilon abl1) rfl
  have he2 := pe2 (Field.atmBoundaryLayerInletEpsilon abl2) rfl
  constructor
  · intro heq
    subst heq
    rw [hU1, hU2, hk1, hk2, he1, he2]
    exact ⟨rfl, rfl, rfl⟩
  · intro hne hU
    rw [hU1, hU2] at hU
    injection hU with hU
    injection hU with hU
    exact hne (by rw [hU])

/-- ABL parameter set with reference velocity 10. -/
def ablHigh : ABLConditions :=
  { Uref := Scalar.str "10", Zref := Scalar.str "2", z0 := Scalar.str "0.1" }

/-- ABL parameter set identical to `ablHigh` except for reference velocity 5. -/
def ablLow : ABLConditions :=
  { Uref := Scalar.str "5", Zref := Scalar.str "2", z0 := Scalar.str "0.1" }

/-- Wind-tunnel inlet record produced from `ablHigh` with every optional argument
omitted. -/
def wtInletHigh : BoundaryCondition :=
  { type := "patch", refLevels := [1, 1],
    T := PyVal.field Field.zeroGradient,
    U := PyVal.field (Field.atmBoundaryLayerInletVelocity ablHigh),
    p := PyVal.field Field.zeroGradient,
    k := PyVal.field (Field.atmBoundaryLayerInletK ablHigh),
    epsilon := PyVal.field (Field.atmBoundaryLayerInletEpsilon ablHigh),
    nut := PyVal.field (Field.calculated (Scalar.str "0")),
    alphat := PyVal.field Field.zeroGradient,
    p_rgh := PyVal.field Field.zeroGradient }

/-- Wind-tunnel inlet record produced from `ablLow` with every optional argument
omitted. -/
def wtInletLow : BoundaryCondition :=
  { type := "patch", refLevels := [1, 1],
    T := PyVal.field Field.zeroGradient,
    U := PyVal.field (Field.atmBoundaryLayerInletVelocity ablLow),
    p := PyVal.field Field.zeroGradient,
    k := PyVal.field (Field.atmBoundaryLayerInletK ablLow),
    epsilon := PyVal.field (Field.atmBoundaryLayerInletEpsilon ablLow),
    nut := PyVal.field (Field.calculated (Scalar.str "0")),
    alphat := PyVal.field Field.zeroGradient,
    p_rgh := PyVal.field Field.zeroGradient }

/-- Witness for C9: changing only the reference velocity changes the inlet's velocity
default. -/
theorem windTunnelInlet_abl_deterministic_witness :
    wtInletHigh.U ≠ wtInletLow.U :=
  (windTunnelInlet_abl_deterministic ablHigh ablLow Option.none PyVal.none PyVal.none
    PyVal.none wtInletHigh wtInletLow rfl rfl).2 (by decide)

end Butterfly
